import Mathlib

/-!
Verification of the Hexapode control stack against its specification.

The Python sources are embedded shallowly:
  - numeric code over Python floats is modelled over the rationals
    (all the literal constants involved, such as 4095.0/360.0 = 11.375,
    are exactly representable, so the embedding is faithful at every
    concrete input used below);
  - stateful classes become explicit state-passing functions;
  - Python int() truncation toward zero becomes the pyInt function.

Sources embedded: src/deplacement.py (gait library, write_positions),
src/hexapod/constants.py, src/hexapod/motor_controller.py,
src/hexapod/obstacle_detector.py, src/navigation_autonome.py
(AutonomousNavigator policy), src/hexapod/http_server.py.
-/

namespace Hexapode

/-- Motor ids, src/deplacement.py line 12 and src/hexapod/constants.py line 19:
DXL_IDS = [1..12]. -/
def DXL_IDS : List ℕ := [1, 2, 3, 4, 5, 6, 7, 8, 9, 10, 11, 12]

/-- Amplitude factor for walking, src/hexapod/constants.py line 30. -/
def FACTOR_WALK : ℚ := 2

/-- Amplitude factor for sliding, src/hexapod/constants.py line 31. -/
def FACTOR_SLIDE : ℚ := 1.2

/-- Amplitude factor for pivoting, src/hexapod/constants.py line 32. -/
def FACTOR_TURN : ℚ := 1.0

/-- Neutral pose, src/deplacement.py line 26. -/
def INIT_POSE : List ℚ := [30, -30, -30, -30, 15, -30, -15, -30, -30, -30, 30, -30]

/-- Forward gait keyframes, src/deplacement.py lines 29-42. -/
def SEQ_MOVE_F : List (List ℚ) := [
  [51.54, -40, -40, -10, 10, -10, -10, -10, -50, -10, 61.54, -20],
  [43.85, -20, -43.85, -10, 13.85, -10, -13.85, -10, -46.15, -10, 69.23, -30],
  [47.69, -10, -47.69, -10, 17.69, -10, -17.69, -10, -53.85, -20, 76.92, -40],
  [51.54, -10, -51.54, -10, 21.54, -10, -21.54, -10, -61.54, -30, 84.62, -20],
  [55.38, -10, -55.38, -10, 25.38, -10, -13.85, -20, -69.23, -40, 80.77, -10],
  [59.23, -10, -59.23, -10, 29.23, -10, -6.15, -30, -76.92, -20, 76.92, -10],
  [63.08, -10, -63.08, -10, 21.54, -20, 1.54, -40, -73.08, -10, 73.08, -10],
  [66.92, -10, -66.92, -10, 13.85, -30, 9.23, -20, -69.23, -10, 69.23, -10],
  [70.77, -10, -59.23, -20, 6.15, -40, 5.38, -10, -65.38, -10, 65.38, -10],
  [74.62, -10, -51.54, -30, -1.54, -20, 1.54, -10, -61.54, -10, 61.54, -10],
  [66.92, -20, -43.85, -40, 2.31, -10, -2.31, -10, -57.69, -10, 57.69, -10],
  [59.23, -30, -36.15, -20, 6.15, -10, -6.15, -10, -53.85, -10, 53.85, -10]]

/-- Backward gait keyframes, src/deplacement.py lines 45-58. -/
def SEQ_MOVE_B : List (List ℚ) := [
  [59.23, -30, -36.15, -20, 6.15, -10, -6.15, -10, -53.85, -10, 53.85, -10],
  [66.92, -20, -43.85, -40, 2.31, -10, -2.31, -10, -57.69, -10, 58, -10],
  [75, -10, -52, -30, -2, -20, 2, -10, -62, -10, 62, -10],
  [71, -10, -59, -20, 6.2, -40, 5, -10, -65, -10, 65, -10],
  [67, -10, -67, -10, 14, -30, 9, -20, -69, -10, 69, -10],
  [63, -10, -63, -10, 22, -20, 2, -40, -73, -10, 73, -10],
  [59, -10, -59, -10, 29, -10, -6.2, -30, -77, -20, 77, -10],
  [55, -10, -55, -10, 25, -10, -14, -20, -69, -40, 81, -10],
  [52, -10, -52, -10, 22, -10, -22, -10, -62, -30, 85, -20],
  [48, -10, -48, -10, 18, -10, -18, -10, -54, -20, 77, -40],
  [44, -20, -44, -10, 14, -10, -14, -10, -46, -10, 69, -30],
  [52, -40, -40, -10, 10, -10, -10, -10, -50, -10, 62, -20]]

/-- Slide-right gait keyframes, src/deplacement.py lines 65-72. -/
def SEQ_SLIDE_R : List (List ℚ) := [
  [0, -35, -60, -25, 8, -60, -8, -50, 0, -35, 40, -25],
  [-10, -20, -50, -50, 8, -20, -8, -30, 10, -20, -10, -50],
  [-10, -40, -50, -20, 8, -20, -8, -30, 10, -40, -10, -20],
  [40, -40, -50, -20, 8, -20, -8, -30, -40, -40, -10, -20],
  [60, -20, -60, -30, 8, -50, -8, -50, -60, -20, -10, -30]]

/-- Slide-left gait keyframes, src/deplacement.py lines 77-84. -/
def SEQ_SLIDE_L : List (List ℚ) := [
  [60, -25, 0, -35, 8, -50, -8, -60, -40, -25, 0, -35],
  [50, -50, 10, -20, 8, -30, -8, -20, 10, -50, -10, -20],
  [50, -20, 10, -40, 8, -30, -8, -20, 10, -20, -10, -40],
  [50, -20, -40, -40, 8, -30, -8, -20, 10, -20, 40, -40],
  [60, -30, -60, -20, 8, -50, -8, -50, 10, -30, 60, -20]]

/-- Pivot-left gait keyframes, src/deplacement.py lines 87-92. -/
def SEQ_PIVOT_L : List (List ℚ) := [
  [55, -20, -55, -40, -7, -40, 7, -20, -35, -20, 35, -40],
  [70, -10, -70, -10, -22, -10, 22, -10, -20, -10, 20, -10],
  [55.29, -40, -55.29, -20, -7.29, -20, 7.29, -40, -34.71, -40, 34.71, -20],
  [40, -10, -40, -10, 8, -10, -8, -10, -50, -10, 50, -10]]

/-- Pivot-right gait keyframes, src/deplacement.py lines 95-100. -/
def SEQ_PIVOT_R : List (List ℚ) := [
  [25, -20, -25, -40, 23, -40, -23, -20, -65, -20, 65, -40],
  [10, -10, -10, -10, 38, -10, -38, -10, -80, -10, 80, -10],
  [25.29, -40, -25.29, -20, 22.71, -20, -22.71, -40, -64.71, -40, 64.71, -20],
  [40, -10, -40, -10, 8, -10, -8, -10, -50, -10, 50, -10]]

/-- Python int() applied to a rational: truncation toward zero
(floor for nonnegative arguments, ceiling for negative ones). -/
def pyInt (q : ℚ) : ℤ := if 0 ≤ q then q.floor else q.ceil

/-- Angle-to-raw conversion, src/deplacement.py lines 104-105 and
src/navigation_autonome.py lines 94-95:
return int(2048 + (deg * (4095.0 / 360.0))).
Note 4095.0/360.0 = 11.375 is exactly representable as a binary float,
so the rational model is exact. -/
def deg2dxl (deg : ℚ) : ℤ := pyInt (2048 + deg * (4095 / 360))

/-- Amplitude transform, src/deplacement.py lines 107-119 and
src/navigation_autonome.py lines 98-109: per-column means, then each
value replaced by mean + (value - mean) * factor. -/
def amplify_sequence (sequence : List (List ℚ)) (factor : ℚ) : List (List ℚ) :=
  let num_motors := (sequence.headD []).length
  let means := (List.range num_motors).map
    (fun i => (sequence.map (fun step => step.getD i 0)).sum / sequence.length)
  sequence.map (fun step =>
    (List.range num_motors).map (fun i =>
      means.getD i 0 + (step.getD i 0 - means.getD i 0) * factor))

/-- Broadcast construction, src/deplacement.py lines 126-134 (identical logic in
src/hexapod/motor_controller.py lines 95-113, MotorController._write_positions):
for each motor id in DXL_IDS order, compute goal_pos = deg2dxl(angles[i]) and
clamp it with max(0, min(4095, goal_pos)). The result lists the (motor id,
clamped raw goal position) pairs added to the group-sync-write packet. -/
def write_positions (angles : List ℚ) : List (ℕ × ℤ) :=
  (List.range DXL_IDS.length).map (fun i =>
    (DXL_IDS.getD i 0, max 0 (min 4095 (deg2dxl (angles.getD i 0)))))

/-- Bridging lemma: the executable floor on ℚ agrees with the mathematical floor. -/
lemma ratFloor_eq_intFloor (q : ℚ) : q.floor = ⌊q⌋ := by
  rw [Rat.floor_def', ← Rat.floor_def]

/-- On nonnegative arguments Python truncation is the floor. -/
lemma pyInt_eq_floor (q : ℚ) (h : 0 ≤ q) : pyInt q = ⌊q⌋ := by
  rw [pyInt, if_pos h, ratFloor_eq_intFloor]

/-- Claim C5, counterexample: deg2dxl is not the rounded-and-clamped conversion
the claim states. At deg = 2 the code truncates 2070.75 to 2070 where the
claimed formula rounds to 2071, and at deg = 400 the code returns 6598,
outside 0..=4095, so deg2dxl performs no clamping either. -/
theorem deg2dxl_not_round_nor_clamped_cx :
    deg2dxl 2 = 2070 ∧ round ((2048 : ℚ) + 2 * (4095 / 360)) = 2071 ∧
      deg2dxl 400 = 6598 := by
  refine ⟨?_, ?_, ?_⟩
  · rw [deg2dxl, pyInt_eq_floor _ (by norm_num), Int.floor_eq_iff]
    norm_num
  · rw [round_eq, Int.floor_eq_iff]
    norm_num
  · rw [deg2dxl, pyInt_eq_floor _ (by norm_num), Int.floor_eq_iff]
    norm_num

/-- Claim C5, amended: deg2dxl truncates 2048 + deg·(4095/360) toward zero and
applies no clamping (the clamp to 0..=4095 happens later, in write_positions);
still, for every deg in [-180, 180] the returned value lies in [0, 4095]. -/
theorem deg2dxl_range (deg : ℚ) (h1 : -180 ≤ deg) (h2 : deg ≤ 180) :
    0 ≤ deg2dxl deg ∧ deg2dxl deg ≤ 4095 := by
  have h0 : (0 : ℚ) ≤ 2048 + deg * (4095 / 360) := by nlinarith
  have hhi : 2048 + deg * (4095 / 360) < 4096 := by nlinarith
  rw [deg2dxl, pyInt_eq_floor _ h0]
  refine ⟨Int.floor_nonneg.mpr h0, ?_⟩
  have := Int.floor_lt.mpr (show (2048 + deg * (4095 / 360) : ℚ) < (4096 : ℤ) by
    exact_mod_cast hhi)
  omega

/-- Witness for deg2dxl_range at deg = 3. -/
theorem deg2dxl_range_witness :
    (-180 ≤ (3 : ℚ)) ∧ ((3 : ℚ) ≤ 180) ∧ 0 ≤ deg2dxl 3 ∧ deg2dxl 3 ≤ 4095 :=
  ⟨by norm_num, by norm_num, deg2dxl_range 3 (by norm_num) (by norm_num)⟩

/-- Claim C2: every broadcast writes exactly 12 goal positions, one per motor
id 1..12 in the fixed DXL_IDS order, and each transmitted raw value is clamped
to 0..=4095, for every keyframe of 12 signed degree angles. -/
theorem write_positions_twelve_clamped (angles : List ℚ) (h : angles.length = 12) :
    (write_positions angles).map Prod.fst = DXL_IDS ∧
      ∀ p ∈ write_positions angles, 0 ≤ p.2 ∧ p.2 ≤ 4095 := by
  constructor
  · simp only [write_positions, List.map_map, Function.comp_def]
    decide
  · intro p hp
    simp only [write_positions, List.mem_map, List.mem_range] at hp
    obtain ⟨i, hi, rfl⟩ := hp
    exact ⟨le_max_left _ _, max_le (by norm_num) (min_le_left _ _)⟩

/-- Witness for write_positions_twelve_clamped at the neutral pose. -/
theorem write_positions_twelve_clamped_witness :
    INIT_POSE.length = 12 ∧
      ((write_positions INIT_POSE).map Prod.fst = DXL_IDS ∧
        ∀ p ∈ write_positions INIT_POSE, 0 ≤ p.2 ∧ p.2 ≤ 4095) :=
  ⟨by decide, write_positions_twelve_clamped INIT_POSE (by decide)⟩

/-- Reading slot i of a row built over List.range n picks the generator at i. -/
lemma getD_range_map (g : ℕ → ℚ) (n i : ℕ) (h : i < n) :
    ((List.range n).map g).getD i 0 = g i := by
  rw [List.getD_eq_getElem?_getD, List.getElem?_map, List.getElem?_range h]
  rfl

/-- Summing an affine image of a list. -/
lemma sum_map_affine {α : Type} (S : List α) (g : α → ℚ) (c f : ℚ) :
    (S.map (fun x => c + (g x - c) * f)).sum
      = S.length * c + ((S.map g).sum - S.length * c) * f := by
  induction S with
  | nil => simp
  | cons a t ih =>
    simp only [List.map_cons, List.sum_cons, List.length_cons, Nat.cast_succ, ih]
    ring

/-- Column-wise mean of a keyframe sequence at motor slot i. -/
def colMean (S : List (List ℚ)) (i : ℕ) : ℚ :=
  (S.map (fun step => step.getD i 0)).sum / S.length

/-- Claim C6: for every non-empty rectangular keyframe sequence and every
factor, the amplitude transform preserves each column-wise mean. -/
theorem amplify_mean_invariant (S : List (List ℚ)) (f : ℚ) (i : ℕ)
    (hne : S ≠ []) (hrect : ∀ step ∈ S, step.length = (S.headD []).length)
    (hi : i < (S.headD []).length) :
    colMean (amplify_sequence S f) i = colMean S i := by
  have hL0 : S.length ≠ 0 := by
    simpa [List.length_eq_zero] using hne
  have hL : (S.length : ℚ) ≠ 0 := Nat.cast_ne_zero.mpr hL0
  set n := (S.headD []).length with hn
  set μ := (List.range n).map
    (fun j => (S.map (fun step => step.getD j 0)).sum / S.length) with hμ
  have hamp : amplify_sequence S f
      = S.map (fun step => (List.range n).map
          (fun j => μ.getD j 0 + (step.getD j 0 - μ.getD j 0) * f)) := rfl
  have hcol : (amplify_sequence S f).map (fun row => row.getD i 0)
      = S.map (fun step => μ.getD i 0 + (step.getD i 0 - μ.getD i 0) * f) := by
    rw [hamp, List.map_map]
    simp only [Function.comp_def]
    exact List.map_congr_left (fun step _ => getD_range_map _ n i hi)
  have hlen : (amplify_sequence S f).length = S.length := by
    rw [hamp, List.length_map]
  have hμi : μ.getD i 0 = (S.map (fun step => step.getD i 0)).sum / S.length :=
    getD_range_map _ n i hi
  have haff := sum_map_affine S (fun step => step.getD i 0) (μ.getD i 0) f
  rw [colMean, colMean, hcol, hlen, haff, hμi]
  field_simp

/-- Witness for amplify_mean_invariant on a 2-by-2 sequence with factor 3. -/
theorem amplify_mean_invariant_witness :
    (([[1, 2], [3, 4]] : List (List ℚ)) ≠ []) ∧
      (∀ step ∈ ([[1, 2], [3, 4]] : List (List ℚ)),
        step.length = (([[1, 2], [3, 4]] : List (List ℚ)).headD []).length) ∧
      0 < (([[1, 2], [3, 4]] : List (List ℚ)).headD []).length ∧
      colMean (amplify_sequence [[1, 2], [3, 4]] 3) 0 = colMean [[1, 2], [3, 4]] 0 :=
  ⟨by decide, by decide, by decide,
    amplify_mean_invariant [[1, 2], [3, 4]] 3 0 (by decide) (by decide) (by decide)⟩

/-- Lateral zone of a classified obstacle, src/hexapod/obstacle_detector.py
lines 124-137: G (left), C (center), D (right), a trichotomy on the
bounding-box center. -/
inductive Zone
  | G
  | C
  | D
deriving DecidableEq, Repr

/-- Classified obstacle record: the fields of the dictionaries built at
src/hexapod/obstacle_detector.py lines 142-147 that the summary stage reads. -/
structure Obstacle where
  pos : Zone
  dist : ℚ
deriving DecidableEq, Repr

/-- Accumulator of src/hexapod/obstacle_detector.py lines 97-100. -/
structure Flags where
  has_left : Bool
  has_right : Bool
  has_center : Bool
  closest_center_dist : ℚ
deriving DecidableEq, Repr

/-- Side distance threshold, src/hexapod/constants.py line 63. -/
def OBSTACLE_DIST_THRESHOLD_SIDE : ℚ := 0.45

/-- Center distance threshold, src/hexapod/constants.py line 64. -/
def OBSTACLE_DIST_THRESHOLD_CENTER : ℚ := 0.50

/-- Critical distance threshold, src/hexapod/constants.py line 65. -/
def OBSTACLE_DIST_THRESHOLD_STOP : ℚ := 0.65

/-- Flag updates of the classification loop,
src/hexapod/obstacle_detector.py lines 125-137. -/
def updateFlags (fl : Flags) (o : Obstacle) : Flags :=
  match o.pos with
  | Zone.G =>
    if OBSTACLE_DIST_THRESHOLD_SIDE < o.dist then { fl with has_left := true } else fl
  | Zone.D =>
    if OBSTACLE_DIST_THRESHOLD_SIDE < o.dist then { fl with has_right := true } else fl
  | Zone.C =>
    if OBSTACLE_DIST_THRESHOLD_CENTER < o.dist then
      { fl with has_center := true,
                closest_center_dist := max fl.closest_center_dist o.dist }
    else fl

/-- Initial accumulator values, src/hexapod/obstacle_detector.py lines 97-100. -/
def initFlags : Flags := ⟨false, false, false, 0⟩

/-- Flags after the classification loop over the obstacle list. -/
def summarize (obstacles : List Obstacle) : Flags :=
  obstacles.foldl updateFlags initFlags

/-- Danger ladder, src/hexapod/obstacle_detector.py lines 149-167. -/
def dangerOf (fl : Flags) : String × Option String :=
  if fl.has_center ∧ OBSTACLE_DIST_THRESHOLD_STOP < fl.closest_center_dist then
    ("STOP", some "CENTER")
  else if fl.has_center then ("WARN", some "CENTER")
  else if fl.has_left ∧ fl.has_right then ("WARN", some "BOTH")
  else if fl.has_left then ("OBS", some "LEFT")
  else if fl.has_right then ("OBS", some "RIGHT")
  else ("OK", none)

/-- Summary label emitted by the detector for a list of classified obstacles. -/
def detectSummary (obstacles : List Obstacle) : String × Option String :=
  dangerOf (summarize obstacles)

/-- Predicate of the spec sentence: a Center obstacle beyond 0.50. -/
def centerTrig (o : Obstacle) : Bool := o.pos == Zone.C && decide ((0.50 : ℚ) < o.dist)

/-- Spec sentence: has_center holds iff some obstacle has zone Center and
distance above 0.50. -/
def spec_has_center (obstacles : List Obstacle) : Bool := obstacles.any centerTrig

/-- Spec sentence: has_left holds iff some Left obstacle has distance above 0.45. -/
def spec_has_left (obstacles : List Obstacle) : Bool :=
  obstacles.any (fun o => o.pos == Zone.G && decide ((0.45 : ℚ) < o.dist))

/-- Spec sentence: has_right holds iff some Right obstacle has distance above 0.45. -/
def spec_has_right (obstacles : List Obstacle) : Bool :=
  obstacles.any (fun o => o.pos == Zone.D && decide ((0.45 : ℚ) < o.dist))

/-- Spec sentence: d_c is the maximum distance among Center obstacles beyond 0.50. -/
def spec_d_c (obstacles : List Obstacle) : ℚ :=
  ((obstacles.filter centerTrig).map Obstacle.dist).foldl max 0

/-- Summary ladder exactly as the spec words it (the refinement reference). -/
def specSummary (obstacles : List Obstacle) : String × Option String :=
  if spec_has_center obstacles ∧ (0.65 : ℚ) < spec_d_c obstacles then
    ("STOP", some "CENTER")
  else if spec_has_center obstacles then ("WARN", some "CENTER")
  else if spec_has_left obstacles ∧ spec_has_right obstacles then ("WARN", some "BOTH")
  else if spec_has_left obstacles then ("OBS", some "LEFT")
  else if spec_has_right obstacles then ("OBS", some "RIGHT")
  else ("OK", none)

/-- Left-flag effect of one loop iteration. -/
lemma updateFlags_has_left (fl : Flags) (o : Obstacle) :
    (updateFlags fl o).has_left
      = (fl.has_left || (o.pos == Zone.G && decide ((0.45 : ℚ) < o.dist))) := by
  obtain ⟨pos, dist⟩ := o
  cases pos <;> rw [updateFlags] <;>
    by_cases h : (0.45 : ℚ) < dist <;>
    by_cases h5 : (0.50 : ℚ) < dist <;>
    simp [h, h5, OBSTACLE_DIST_THRESHOLD_SIDE, OBSTACLE_DIST_THRESHOLD_CENTER]

/-- Right-flag effect of one loop iteration. -/
lemma updateFlags_has_right (fl : Flags) (o : Obstacle) :
    (updateFlags fl o).has_right
      = (fl.has_right || (o.pos == Zone.D && decide ((0.45 : ℚ) < o.dist))) := by
  obtain ⟨pos, dist⟩ := o
  cases pos <;> rw [updateFlags] <;>
    by_cases h : (0.45 : ℚ) < dist <;>
    by_cases h5 : (0.50 : ℚ) < dist <;>
    simp [h, h5, OBSTACLE_DIST_THRESHOLD_SIDE, OBSTACLE_DIST_THRESHOLD_CENTER]

/-- Center-flag effect of one loop iteration. -/
lemma updateFlags_has_center (fl : Flags) (o : Obstacle) :
    (updateFlags fl o).has_center = (fl.has_center || centerTrig o) := by
  obtain ⟨pos, dist⟩ := o
  cases pos <;> rw [updateFlags, centerTrig] <;>
    by_cases h : (0.45 : ℚ) < dist <;>
    by_cases h5 : (0.50 : ℚ) < dist <;>
    simp [h, h5, OBSTACLE_DIST_THRESHOLD_SIDE, OBSTACLE_DIST_THRESHOLD_CENTER]

/-- Tracked-distance effect of one loop iteration. -/
lemma updateFlags_dc (fl : Flags) (o : Obstacle) :
    (updateFlags fl o).closest_center_dist
      = (if centerTrig o then max fl.closest_center_dist o.dist
         else fl.closest_center_dist) := by
  obtain ⟨pos, dist⟩ := o
  cases pos <;> rw [updateFlags, centerTrig] <;>
    by_cases h : (0.45 : ℚ) < dist <;>
    by_cases h5 : (0.50 : ℚ) < dist <;>
    simp [h, h5, OBSTACLE_DIST_THRESHOLD_SIDE, OBSTACLE_DIST_THRESHOLD_CENTER]

/-- Closed form of the classification fold, for any starting accumulator. -/
lemma summarize_foldl (obstacles : List Obstacle) (fl : Flags) :
    obstacles.foldl updateFlags fl =
      ⟨fl.has_left || spec_has_left obstacles,
       fl.has_right || spec_has_right obstacles,
       fl.has_center || spec_has_center obstacles,
       ((obstacles.filter centerTrig).map Obstacle.dist).foldl max
         fl.closest_center_dist⟩ := by
  induction obstacles generalizing fl with
  | nil => simp [spec_has_left, spec_has_right, spec_has_center]
  | cons o t ih =>
    rw [List.foldl_cons, ih]
    simp only [spec_has_left, spec_has_right, spec_has_center, List.any_cons,
      List.filter_cons, updateFlags_has_left, updateFlags_has_right,
      updateFlags_has_center, updateFlags_dc, centerTrig, Flags.mk.injEq]
    refine ⟨Bool.or_assoc .., Bool.or_assoc .., Bool.or_assoc .., ?_⟩
    by_cases hct : (o.pos == Zone.C && decide ((0.50 : ℚ) < o.dist)) = true <;>
      simp [hct]

/-- Claim C3: the detector summary equals the spec ladder with thresholds
0.50 (center), 0.45 (sides) and 0.65 (stop) for every obstacle list. -/
theorem detect_summary_matches_spec (obstacles : List Obstacle) :
    detectSummary obstacles = specSummary obstacles := by
  rw [detectSummary, summarize, summarize_foldl]
  simp only [initFlags, Bool.false_or]
  rw [dangerOf, specSummary, spec_d_c, OBSTACLE_DIST_THRESHOLD_STOP]

/-- Numeric rank of the danger labels under the order OK < OBS < WARN < STOP. -/
def dangerRank (danger : String) : ℕ :=
  if danger = "STOP" then 3
  else if danger = "WARN" then 2
  else if danger = "OBS" then 1
  else 0

/-- Rank of the ladder output as a function of the accumulated flags. -/
lemma dangerRank_dangerOf (fl : Flags) :
    dangerRank (dangerOf fl).1 =
      (if fl.has_center ∧ OBSTACLE_DIST_THRESHOLD_STOP < fl.closest_center_dist then 3
       else if fl.has_center then 2
       else if fl.has_left ∧ fl.has_right then 2
       else if fl.has_left then 1
       else if fl.has_right then 1
       else 0) := by
  rw [dangerOf]
  split_ifs <;> simp [dangerRank]

/-- A starting value never exceeds a running maximum over it. -/
lemma le_foldl_max (l : List ℚ) (a : ℚ) : a ≤ l.foldl max a := by
  induction l generalizing a with
  | nil => simp
  | cons x t ih => exact le_trans (le_max_left a x) (ih (max a x))

/-- A running maximum is monotone in its starting value. -/
lemma foldl_max_mono (l : List ℚ) {a b : ℚ} (h : a ≤ b) :
    l.foldl max a ≤ l.foldl max b := by
  induction l generalizing a b with
  | nil => simpa
  | cons x t ih => exact ih (max_le_max h (le_refl x))

/-- Inserting one value can only raise a running maximum. -/
lemma foldl_max_insert (l1 l2 : List ℚ) (x a : ℚ) :
    (l1 ++ l2).foldl max a ≤ (l1 ++ x :: l2).foldl max a := by
  rw [List.foldl_append, List.foldl_append, List.foldl_cons]
  exact foldl_max_mono l2 (le_max_left _ x)

/-- The ladder rank is monotone in the flags. -/
lemma dangerRank_mono {fl fl' : Flags}
    (hL : fl.has_left = true → fl'.has_left = true)
    (hR : fl.has_right = true → fl'.has_right = true)
    (hC : fl.has_center = true → fl'.has_center = true)
    (hD : fl.closest_center_dist ≤ fl'.closest_center_dist) :
    dangerRank (dangerOf fl).1 ≤ dangerRank (dangerOf fl').1 := by
  rw [dangerRank_dangerOf, dangerRank_dangerOf]
  split_ifs with h1 h2 h3 h4 h5 h6 h7 h8 h9 <;>
    simp_all <;> first | omega | linarith

/-- Claim C7: inserting one extra obstacle anywhere in the input never lowers
the emitted danger label under the order OK < OBS < WARN < STOP. -/
theorem detect_summary_monotone (l1 l2 : List Obstacle) (o : Obstacle) :
    dangerRank (detectSummary (l1 ++ l2)).1
      ≤ dangerRank (detectSummary (l1 ++ o :: l2)).1 := by
  rw [detectSummary, detectSummary, summarize, summarize,
    summarize_foldl, summarize_foldl]
  refine dangerRank_mono ?_ ?_ ?_ ?_
  · simp only [initFlags, Bool.false_or, spec_has_left, List.any_append, List.any_cons]
    intro h
    rcases Bool.or_eq_true_iff.mp h with h | h <;> simp [h]
  · simp only [initFlags, Bool.false_or, spec_has_right, List.any_append, List.any_cons]
    intro h
    rcases Bool.or_eq_true_iff.mp h with h | h <;> simp [h]
  · simp only [initFlags, Bool.false_or, spec_has_center, List.any_append, List.any_cons]
    intro h
    rcases Bool.or_eq_true_iff.mp h with h | h <;> simp [h]
  · simp only [initFlags, List.filter_append, List.filter_cons]
    by_cases hct : centerTrig o = true <;> simp only [hct, if_pos, if_neg, ite_true,
      ite_false, Bool.false_eq_true, not_false_eq_true]
    · rw [List.map_append, List.map_append, List.map_cons]
      exact foldl_max_insert _ _ _ _
    · exact le_refl _

/-- Full-frame detection guard, src/hexapod/obstacle_detector.py lines 50-51
(identically src/navigation_autonome.py lines 291-292): the frame argument is
tested first and the None case returns before any image processing; the rest
of the pipeline appears as the abstract argument. -/
def detect {Frame : Type} (pipeline : Frame → List Obstacle × String × Option String) :
    Option Frame → List Obstacle × String × Option String
  | none => ([], "INIT", none)
  | some frame => pipeline frame

/-- Claim C10: detect on a missing frame returns the empty obstacle list, the
danger string INIT and no position, whatever the rest of the pipeline does. -/
theorem detect_none_init {Frame : Type}
    (pipeline : Frame → List Obstacle × String × Option String) :
    detect pipeline none = ([], "INIT", none) := rfl

/-- Effective forward gait, src/hexapod/motor_controller.py line 46. -/
def seq_forward : List (List ℚ) := amplify_sequence SEQ_MOVE_F FACTOR_WALK

/-- Effective backward gait, src/hexapod/motor_controller.py line 47. -/
def seq_backward : List (List ℚ) := amplify_sequence SEQ_MOVE_B FACTOR_WALK

/-- Effective slide-left gait, src/hexapod/motor_controller.py line 48. -/
def seq_slide_left : List (List ℚ) := amplify_sequence SEQ_SLIDE_L FACTOR_SLIDE

/-- Effective slide-right gait, src/hexapod/motor_controller.py line 49. -/
def seq_slide_right : List (List ℚ) := amplify_sequence SEQ_SLIDE_R FACTOR_SLIDE

/-- Effective pivot-left gait, src/hexapod/motor_controller.py line 50. -/
def seq_pivot_left : List (List ℚ) := amplify_sequence SEQ_PIVOT_L FACTOR_TURN

/-- Effective pivot-right gait, src/hexapod/motor_controller.py line 51. -/
def seq_pivot_right : List (List ℚ) := amplify_sequence SEQ_PIVOT_R FACTOR_TURN

/-- Mutable state of MotorController, src/hexapod/motor_controller.py
lines 42-43: the step cursor and the name of the running action. -/
structure MCState where
  step_index : ℕ
  current_action : String
deriving DecidableEq, Repr

/-- Initial controller state: step_index = 0, current_action = stop. -/
def mcInit : MCState := ⟨0, "stop"⟩

/-- MotorController.forward, src/hexapod/motor_controller.py lines 123-127.
Returns the cursor at which the keyframe seq_forward[cursor] is broadcast,
and the state after the call. The method never resets the cursor. -/
def mc_forward (s : MCState) : ℕ × MCState :=
  let s1 : MCState := { s with current_action := "forward" }
  (s1.step_index, { s1 with step_index := (s1.step_index + 1) % seq_forward.length })

/-- MotorController.backward, src/hexapod/motor_controller.py lines 129-133. -/
def mc_backward (s : MCState) : ℕ × MCState :=
  let s1 : MCState := { s with current_action := "backward" }
  (s1.step_index, { s1 with step_index := (s1.step_index + 1) % seq_backward.length })

/-- MotorController.slide_left, src/hexapod/motor_controller.py lines 135-141:
resets the cursor when the action changes, then broadcasts and advances. -/
def mc_slide_left (s : MCState) : ℕ × MCState :=
  let s0 : MCState := if s.current_action ≠ "slide_left" then { s with step_index := 0 } else s
  let s1 : MCState := { s0 with current_action := "slide_left" }
  (s1.step_index, { s1 with step_index := (s1.step_index + 1) % seq_slide_left.length })

/-- MotorController.slide_right, src/hexapod/motor_controller.py lines 143-149. -/
def mc_slide_right (s : MCState) : ℕ × MCState :=
  let s0 : MCState := if s.current_action ≠ "slide_right" then { s with step_index := 0 } else s
  let s1 : MCState := { s0 with current_action := "slide_right" }
  (s1.step_index, { s1 with step_index := (s1.step_index + 1) % seq_slide_right.length })

/-- MotorController.pivot_left, src/hexapod/motor_controller.py lines 151-157. -/
def mc_pivot_left (s : MCState) : ℕ × MCState :=
  let s0 : MCState := if s.current_action ≠ "pivot_left" then { s with step_index := 0 } else s
  let s1 : MCState := { s0 with current_action := "pivot_left" }
  (s1.step_index, { s1 with step_index := (s1.step_index + 1) % seq_pivot_left.length })

/-- MotorController.pivot_right, src/hexapod/motor_controller.py lines 159-165. -/
def mc_pivot_right (s : MCState) : ℕ × MCState :=
  let s0 : MCState := if s.current_action ≠ "pivot_right" then { s with step_index := 0 } else s
  let s1 : MCState := { s0 with current_action := "pivot_right" }
  (s1.step_index, { s1 with step_index := (s1.step_index + 1) % seq_pivot_right.length })

/-- MotorController.stop, src/hexapod/motor_controller.py lines 115-121:
when the action changes it zeroes the cursor and broadcasts INIT_POSE,
otherwise it does nothing. -/
def mc_stop (s : MCState) : MCState :=
  if s.current_action ≠ "stop" then ⟨0, "stop"⟩ else s

/-- The six gait-playing commands of the controller. -/
inductive Cmd
  | forward
  | backward
  | slide_left
  | slide_right
  | pivot_left
  | pivot_right
deriving DecidableEq, Repr

/-- Action name a command stores into current_action. -/
def cmdName : Cmd → String
  | Cmd.forward => "forward"
  | Cmd.backward => "backward"
  | Cmd.slide_left => "slide_left"
  | Cmd.slide_right => "slide_right"
  | Cmd.pivot_left => "pivot_left"
  | Cmd.pivot_right => "pivot_right"

/-- Dispatch of a command to its controller method. -/
def applyCmd : Cmd → MCState → ℕ × MCState
  | Cmd.forward => mc_forward
  | Cmd.backward => mc_backward
  | Cmd.slide_left => mc_slide_left
  | Cmd.slide_right => mc_slide_right
  | Cmd.pivot_left => mc_pivot_left
  | Cmd.pivot_right => mc_pivot_right

/-- Claim C1, amended: after any command the stored action is the command's
name, and the cursor at which the command broadcasts is the incoming cursor
when the action is unchanged, the incoming cursor also for forward and
backward (these two never reset), and 0 for the four slide and pivot
commands when the action changes. -/
theorem mc_cursor_reset_behavior (s : MCState) (c : Cmd) :
    (applyCmd c s).2.current_action = cmdName c ∧
      (applyCmd c s).1 =
        (if s.current_action = cmdName c then s.step_index
         else if c = Cmd.forward ∨ c = Cmd.backward then s.step_index
         else 0) := by
  cases c <;>
    simp only [applyCmd, cmdName, mc_forward, mc_backward, mc_slide_left,
      mc_slide_right, mc_pivot_left, mc_pivot_right] <;>
    split_ifs <;> simp_all

/-- State reached from the initial controller state by three slide_left calls. -/
def mcAfter3SlideLeft : MCState :=
  ((mc_slide_left ((mc_slide_left ((mc_slide_left mcInit).2)).2)).2)

/-- Claim C1, counterexample: three slide_left calls leave the controller in
action slide_left with cursor 3; the next forward call, although it changes
the action, broadcasts seq_forward[3], not the first keyframe of the gait. -/
theorem mc_forward_change_keeps_cursor_cx :
    mcAfter3SlideLeft.current_action = "slide_left" ∧
      mcAfter3SlideLeft.step_index = 3 ∧ (mc_forward mcAfter3SlideLeft).1 = 3 := by
  decide

/-- Hidden state of AutonomousNavigator read and written by _decide_action,
src/navigation_autonome.py lines 594-597: current_state (INIT initially),
escape_direction (None initially) and escape_steps (0 initially). The class
has no danger_count and no rotation_bias attribute. -/
structure NavState where
  current_state : String
  escape_direction : Option String
  escape_steps : ℕ
deriving DecidableEq, Repr

/-- Translation-step budget, src/navigation_autonome.py line 598. -/
def max_escape_steps : ℕ := 10

/-- Initial navigator state, src/navigation_autonome.py lines 594-597. -/
def navInit : NavState := ⟨"INIT", none, 0⟩

/-- AutonomousNavigator._decide_action, src/navigation_autonome.py
lines 607-671: maps (danger, position) and the hidden state to the chosen
action string and the updated state. -/
def decide_action (nav : NavState) (danger : String) (position : Option String) :
    String × NavState :=
  if danger = "STOP" then
    let ed := nav.escape_direction.getD "LEFT"
    ((if ed = "LEFT" then "slide_left" else "slide_right"),
     { nav with current_state := "BLOCKED", escape_direction := some ed })
  else if position = some "CENTER" then
    let ed := nav.escape_direction.getD "LEFT"
    ((if ed = "LEFT" then "slide_left" else "slide_right"),
     { nav with current_state := "AVOIDING", escape_direction := some ed })
  else if position = some "BOTH" then
    let steps := nav.escape_steps + 1
    ((if steps % 10 < 5 then "slide_left" else "slide_right"),
     { nav with current_state := "BLOCKED", escape_steps := steps })
  else if position = some "LEFT" then
    let steps := nav.escape_steps + 1
    if steps > max_escape_steps then
      ("forward", { nav with current_state := "AVOIDING",
                             escape_direction := some "RIGHT", escape_steps := 0 })
    else
      ("slide_right", { nav with current_state := "AVOIDING",
                                 escape_direction := some "RIGHT", escape_steps := steps })
  else if position = some "RIGHT" then
    let steps := nav.escape_steps + 1
    if steps > max_escape_steps then
      ("forward", { nav with current_state := "AVOIDING",
                             escape_direction := some "LEFT", escape_steps := 0 })
    else
      ("slide_left", { nav with current_state := "AVOIDING",
                                escape_direction := some "LEFT", escape_steps := steps })
  else
    ("forward", { nav with current_state := "FORWARD", escape_direction := none,
                           escape_steps := 0 })

/-- Claim C8: on (OBS, Left) the policy emits slide_right with
escape_direction Right and escape_steps incremented, except that once the
incremented counter exceeds the budget of 10 it emits one forward and resets
the counter to 0; (OBS, Right) is symmetric with slide_left and Left. -/
theorem decide_action_obs (nav : NavState) :
    decide_action nav "OBS" (some "LEFT")
        = (if nav.escape_steps + 1 > 10 then
             ("forward", ⟨"AVOIDING", some "RIGHT", 0⟩)
           else ("slide_right", ⟨"AVOIDING", some "RIGHT", nav.escape_steps + 1⟩)) ∧
      decide_action nav "OBS" (some "RIGHT")
        = (if nav.escape_steps + 1 > 10 then
             ("forward", ⟨"AVOIDING", some "LEFT", 0⟩)
           else ("slide_left", ⟨"AVOIDING", some "LEFT", nav.escape_steps + 1⟩)) := by
  constructor <;> rw [decide_action] <;> simp [max_escape_steps]

/-- Claim C4, counterexample: from the initial navigator state, on the
summary (STOP, Center) the policy chooses slide_left, which is neither
pivot_left nor pivot_right; no pivot action exists in this navigator. -/
theorem decide_action_stop_no_pivot_cx :
    (decide_action navInit "STOP" (some "CENTER")).1 = "slide_left" ∧
      (decide_action navInit "STOP" (some "CENTER")).1 ≠ "pivot_left" ∧
      (decide_action navInit "STOP" (some "CENTER")).1 ≠ "pivot_right" := by
  decide

/-- Claim C4, amended: on danger STOP the policy sets current_state to
BLOCKED, defaults escape_direction to LEFT when it was unset, emits
slide_left when the (defaulted) escape direction is LEFT and slide_right
otherwise, and leaves escape_steps untouched; it maintains no pivot
actions, no danger_count and no rotation_bias. -/
theorem decide_action_stop (nav : NavState) :
    decide_action nav "STOP" (some "CENTER")
      = ((if nav.escape_direction.getD "LEFT" = "LEFT" then "slide_left"
          else "slide_right"),
         { nav with current_state := "BLOCKED",
                    escape_direction := some (nav.escape_direction.getD "LEFT") }) := by
  rw [decide_action]
  simp

/-- Result of the GET dispatch of the streaming server. -/
inductive GetResult
  | stream
  | status (statusCode : ℕ) (contentType : String) (body : List (String × String))
  | notFound (statusCode : ℕ)
deriving DecidableEq, Repr

/-- Status body, src/hexapod/http_server.py line 69: the handler writes the
fixed JSON object mapping the single key status to the string running,
modelled as its list of key-value pairs. -/
def status_json : List (String × String) := [("status", "running")]

/-- StreamHandler.do_GET, src/hexapod/http_server.py lines 25-32 with
StreamHandler._handle_status, lines 63-69: the root path serves the MJPEG
stream, /status answers 200 with content type application/json and the fixed
status body, anything else gets a 404 error. -/
def do_GET (path : String) : GetResult :=
  if path = "/" then GetResult.stream
  else if path = "/status" then GetResult.status 200 "application/json" status_json
  else GetResult.notFound 404

/-- Claim C9, counterexample: the status body has exactly the single key
status; none of the six claimed keys fps, obstacles, danger, action, state,
paused occurs in it. -/
theorem status_keys_cx :
    status_json.map Prod.fst = ["status"] ∧
      "fps" ∉ status_json.map Prod.fst ∧
      "obstacles" ∉ status_json.map Prod.fst ∧
      "danger" ∉ status_json.map Prod.fst ∧
      "action" ∉ status_json.map Prod.fst ∧
      "state" ∉ status_json.map Prod.fst ∧
      "paused" ∉ status_json.map Prod.fst := by
  decide

/-- Claim C9, amended: every GET /status request returns status code 200 with
content type application/json and the fixed one-key body status: running. -/
theorem do_GET_status (path : String) (h : path = "/status") :
    do_GET path = GetResult.status 200 "application/json" [("status", "running")] := by
  subst h
  decide

/-- Witness for do_GET_status at the literal /status path. -/
theorem do_GET_status_witness :
    ("/status" : String) = "/status" ∧
      do_GET "/status"
        = GetResult.status 200 "application/json" [("status", "running")] :=
  ⟨rfl, do_GET_status "/status" rfl⟩

end Hexapode
